import Mathlib

/-!
Verification of the user-management CRUD service and the school-management
subjects/faculty read path.

The routing layer `app/api/user.py` is embedded directly from the source.
The CRUD layer `app/crud/user.py` and the schema module it imports are not
part of the source tree; those operations are modelled from the design
specification (each such definition carries a doc comment saying so).
The store is a list of user records plus a fresh-identifier counter.
-/

/-- A stored User record: identifier, the two unique attributes, and one
implementation-defined profile field (the spec leaves profile fields open;
one string field `fullName` stands for them). -/
structure User where
  id : Nat
  email : String
  username : String
  fullName : String
  deriving Repr, DecidableEq

/-- Modelled from the spec: `app/schemas/user.py` (UserCreate) is not in the
source tree. A creation request carries email, username and the profile
field. -/
structure UserCreate where
  email : String
  username : String
  fullName : String
  deriving Repr, DecidableEq

/-- Modelled from the spec: `app/schemas/user.py` (UserUpdate) is not in the
source tree. Per the spec every field of the partial-update input is an
optional, absent-able value. -/
structure UserUpdate where
  email : Option String
  username : Option String
  fullName : Option String
  deriving Repr, DecidableEq

/-- The passive storage collaborator: stored records in store order plus the
counter from which fresh identifiers are assigned. -/
structure Store where
  users : List User
  nextId : Nat
  deriving Repr, DecidableEq

/-- An HTTPException as raised by the routing layer: a status code and a
detail string. -/
structure HTTPError where
  statusCode : Nat
  detail : String
  deriving Repr, DecidableEq

/-- Modelled from the spec: `app/crud/user.py` is not in the source tree;
per the spec the store supports exact-match filters on email. Returns the
first stored record whose email equals the given one. -/
def get_user_by_email (db : Store) (email : String) : Option User :=
  db.users.find? (fun u => u.email == email)

/-- Modelled from the spec: `app/crud/user.py` is not in the source tree;
per the spec the store supports exact-match filters on username. -/
def get_user_by_username (db : Store) (username : String) : Option User :=
  db.users.find? (fun u => u.username == username)

/-- Modelled from the spec: `app/crud/user.py` is not in the source tree;
per the spec the store supports primary-key lookup. -/
def get_user_by_id (db : Store) (userId : Nat) : Option User :=
  db.users.find? (fun u => u.id == userId)

/-- Modelled from the spec: `app/crud/user.py` is not in the source tree;
per the spec creation persists the new record and assigns a fresh
identifier (never reused within a process lifetime, hence a counter). -/
def crud_create_user (db : Store) (user : UserCreate) : User × Store :=
  let u : User := ⟨db.nextId, user.email, user.username, user.fullName⟩
  (u, ⟨db.users ++ [u], db.nextId + 1⟩)

/-- Modelled from the spec: every field present (non-absent) in the partial
input overwrites the corresponding stored field; absent fields are left
untouched. -/
def applyUpdate (u : User) (upd : UserUpdate) : User :=
  { u with
    email := upd.email.getD u.email
    username := upd.username.getD u.username
    fullName := upd.fullName.getD u.fullName }

/-- Modelled from the spec: `app/crud/user.py` is not in the source tree;
per the spec the store supports partial update of the record with the given
primary key. -/
def crud_update_user (db : Store) (dbUser : User) (upd : UserUpdate) :
    User × Store :=
  let u := applyUpdate dbUser upd
  (u, ⟨db.users.map (fun v => if v.id == dbUser.id then u else v), db.nextId⟩)

/-- Modelled from the spec: `app/crud/user.py` is not in the source tree;
per the spec deletion removes the record with the given primary key
permanently. -/
def crud_delete_user (db : Store) (dbUser : User) : Store :=
  ⟨db.users.filter (fun u => u.id != dbUser.id), db.nextId⟩

/-- Modelled from the spec: `app/crud/user.py` is not in the source tree;
per the spec listing skips `skip` records of the full result set and
returns at most `limit` of the rest. -/
def crud_get_users (db : Store) (skip : Nat) (limit : Nat) : List User :=
  (db.users.drop skip).take limit

/-- Routing layer `create_user` from `app/api/user.py`: looks up the email,
raising 400 if registered, then the username, raising 400 if registered,
then delegates to the CRUD creation. The store passes through unchanged on
the error paths. -/
def create_user (user : UserCreate) (db : Store) :
    Except HTTPError User × Store :=
  match get_user_by_email db user.email with
  | some _ => (Except.error ⟨400, "Email already registered"⟩, db)
  | none =>
    match get_user_by_username db user.username with
    | some _ => (Except.error ⟨400, "Username already registered"⟩, db)
    | none =>
      let p := crud_create_user db user
      (Except.ok p.1, p.2)

/-- Routing layer `get_user` from `app/api/user.py`: primary-key lookup,
404 when absent. -/
def get_user (userId : Nat) (db : Store) : Except HTTPError User :=
  match get_user_by_id db userId with
  | none => Except.error ⟨404, "User not found"⟩
  | some u => Except.ok u

/-- Routing layer `get_users` from `app/api/user.py`: `skip` defaults to 0
and `limit` to 100, as in the source signature. -/
def get_users (db : Store) (skip : Nat := 0) (limit : Nat := 100) :
    List User :=
  crud_get_users db skip limit

/-- Routing layer `update_user` from `app/api/user.py`: primary-key lookup,
404 when absent, otherwise the CRUD partial update. -/
def update_user (userId : Nat) (userUpdate : UserUpdate) (db : Store) :
    Except HTTPError User × Store :=
  match get_user_by_id db userId with
  | none => (Except.error ⟨404, "User not found"⟩, db)
  | some dbUser =>
    let p := crud_update_user db dbUser userUpdate
    (Except.ok p.1, p.2)

/-- Routing layer `delete_user` from `app/api/user.py`: primary-key lookup,
404 when absent, otherwise the CRUD deletion; returns no content. -/
def delete_user (userId : Nat) (db : Store) : Except HTTPError Unit × Store :=
  match get_user_by_id db userId with
  | none => (Except.error ⟨404, "User not found"⟩, db)
  | some dbUser => (Except.ok (), crud_delete_user db dbUser)

/-- A Subject record from `school-management/main.py`. -/
structure Subject where
  id : Nat
  name : String
  duration : String
  department : String
  deriving Repr, DecidableEq

/-- A TeachingFaculty record from `school-management/main.py`. -/
structure TeachingFaculty where
  id : Nat
  course : String
  faculty : String
  deriving Repr, DecidableEq

/-- One output record of the subjects/faculty read path: the subject's
fields together with the matched faculty name, if any. -/
structure SubjectFacultyRecord where
  subject : Subject
  faculty : Option String
  deriving Repr, DecidableEq

/-- The read path `list_of_subject_faculty_teaching` from
`school-management/main.py`: for each subject, the first TeachingFaculty
record whose course equals the subject's name supplies the faculty;
otherwise the faculty is absent. -/
def list_of_subject_faculty_teaching (subjects : List Subject)
    (teachingFaculty : List TeachingFaculty) : List SubjectFacultyRecord :=
  subjects.map (fun s =>
    let facultyRecord := teachingFaculty.find? (fun f => f.course == s.name)
    ⟨s, facultyRecord.map (fun f => f.faculty)⟩)

/-- The email lookup succeeds exactly when some stored user has the email. -/
theorem get_user_by_email_isSome (db : Store) (e : String) :
    (get_user_by_email db e).isSome ↔ ∃ u ∈ db.users, u.email = e := by
  simp [get_user_by_email, List.find?_isSome]

/-- The username lookup succeeds exactly when some stored user has the
username. -/
theorem get_user_by_username_isSome (db : Store) (s : String) :
    (get_user_by_username db s).isSome ↔ ∃ u ∈ db.users, u.username = s := by
  simp [get_user_by_username, List.find?_isSome]

/-- The primary-key lookup fails exactly when no stored user has the
identifier. -/
theorem get_user_by_id_eq_none (db : Store) (i : Nat) :
    get_user_by_id db i = none ↔ ∀ u ∈ db.users, u.id ≠ i := by
  simp [get_user_by_id, List.find?_eq_none]

/-- C1: for every store state and CreateUser request, if some existing user
has the requested email or some existing user has the requested username,
the call fails with Conflict (HTTP 400); and whenever some existing user
has the requested email, the reported conflict is the email one — the email
check runs first, so it wins even when the username would also conflict. -/
theorem create_user_conflict (db : Store) (req : UserCreate)
    (h : (∃ u ∈ db.users, u.email = req.email) ∨
         (∃ u ∈ db.users, u.username = req.username)) :
    (∃ d, (create_user req db).1 = Except.error ⟨400, d⟩) ∧
    ((∃ u ∈ db.users, u.email = req.email) →
      (create_user req db).1 = Except.error ⟨400, "Email already registered"⟩) := by
  constructor
  · rcases h with he | hn
    · have hs : (get_user_by_email db req.email).isSome :=
        (get_user_by_email_isSome db req.email).2 he
      rcases Option.isSome_iff_exists.1 hs with ⟨u, hu⟩
      exact ⟨"Email already registered", by simp [create_user, hu]⟩
    · cases hem : get_user_by_email db req.email with
      | some u => exact ⟨"Email already registered", by simp [create_user, hem]⟩
      | none =>
        have hs : (get_user_by_username db req.username).isSome :=
          (get_user_by_username_isSome db req.username).2 hn
        rcases Option.isSome_iff_exists.1 hs with ⟨u, hu⟩
        exact ⟨"Username already registered", by simp [create_user, hem, hu]⟩
  · intro he
    have hs : (get_user_by_email db req.email).isSome :=
      (get_user_by_email_isSome db req.email).2 he
    rcases Option.isSome_iff_exists.1 hs with ⟨u, hu⟩
    simp [create_user, hu]

/-- A two-user store used to instantiate several theorems: alice and bob,
with distinct emails and usernames. -/
def seedStore : Store :=
  ⟨[⟨1, "a@x.com", "alice", "Alice"⟩, ⟨2, "b@x.com", "bob", "Bob"⟩], 3⟩

/-- A creation request whose email collides with alice and whose username
collides with bob. -/
def conflictReq : UserCreate := ⟨"a@x.com", "bob", "Carol"⟩

/-- Witness for C1: on the seeded store, the doubly conflicting request
fails with 400 and reports the email conflict. -/
theorem create_user_conflict_witness :
    ((∃ u ∈ seedStore.users, u.email = conflictReq.email) ∨
     (∃ u ∈ seedStore.users, u.username = conflictReq.username)) ∧
    ((∃ d, (create_user conflictReq seedStore).1 = Except.error ⟨400, d⟩) ∧
     ((∃ u ∈ seedStore.users, u.email = conflictReq.email) →
       (create_user conflictReq seedStore).1 =
         Except.error ⟨400, "Email already registered"⟩)) :=
  ⟨Or.inl (by decide), create_user_conflict seedStore conflictReq (Or.inl (by decide))⟩

/-- C8: whenever CreateUser fails with Conflict (duplicate email or
duplicate username), the store it returns is the very store it was given:
nothing was inserted and the record count is unchanged. -/
theorem create_user_conflict_store_unchanged (db : Store) (req : UserCreate)
    (h : (∃ u ∈ db.users, u.email = req.email) ∨
         (∃ u ∈ db.users, u.username = req.username)) :
    (create_user req db).2 = db ∧
    (create_user req db).2.users.length = db.users.length ∧
    (∃ d, (create_user req db).1 = Except.error ⟨400, d⟩) := by
  have hmain :
      (create_user req db).2 = db ∧
      (∃ d, (create_user req db).1 = Except.error ⟨400, d⟩) := by
    rcases h with he | hn
    · have hs : (get_user_by_email db req.email).isSome :=
        (get_user_by_email_isSome db req.email).2 he
      rcases Option.isSome_iff_exists.1 hs with ⟨u, hu⟩
      exact ⟨by simp [create_user, hu],
             ⟨"Email already registered", by simp [create_user, hu]⟩⟩
    · cases hem : get_user_by_email db req.email with
      | some u =>
        exact ⟨by simp [create_user, hem],
               ⟨"Email already registered", by simp [create_user, hem]⟩⟩
      | none =>
        have hs : (get_user_by_username db req.username).isSome :=
          (get_user_by_username_isSome db req.username).2 hn
        rcases Option.isSome_iff_exists.1 hs with ⟨u, hu⟩
        exact ⟨by simp [create_user, hem, hu],
               ⟨"Username already registered", by simp [create_user, hem, hu]⟩⟩
  exact ⟨hmain.1, by rw [hmain.1], hmain.2⟩

/-- Witness for C8: on the seeded store, a duplicate-email request leaves
the store and its record count unchanged. -/
theorem create_user_conflict_store_unchanged_witness :
    ((∃ u ∈ seedStore.users, u.email = conflictReq.email) ∨
     (∃ u ∈ seedStore.users, u.username = conflictReq.username)) ∧
    ((create_user conflictReq seedStore).2 = seedStore ∧
     (create_user conflictReq seedStore).2.users.length =
       seedStore.users.length ∧
     (∃ d, (create_user conflictReq seedStore).1 = Except.error ⟨400, d⟩)) :=
  ⟨Or.inl (by decide),
   create_user_conflict_store_unchanged seedStore conflictReq (Or.inl (by decide))⟩

/-- C5: for every valid request (email and username not already present,
identifiers assigned so far all below the fresh counter), CreateUser
succeeds and GetUser on the freshly assigned identifier returns a user
whose email, username and profile field equal the submitted ones. -/
theorem create_then_get (db : Store) (req : UserCreate)
    (hfresh : ∀ u ∈ db.users, u.id < db.nextId)
    (hemail : ∀ u ∈ db.users, u.email ≠ req.email)
    (husername : ∀ u ∈ db.users, u.username ≠ req.username) :
    ∃ u, (create_user req db).1 = Except.ok u ∧
      get_user u.id (create_user req db).2 = Except.ok u ∧
      u.email = req.email ∧ u.username = req.username ∧
      u.fullName = req.fullName := by
  have hem : get_user_by_email db req.email = none := by
    rw [get_user_by_email, List.find?_eq_none]
    intro u hu
    simpa using hemail u hu
  have hun : get_user_by_username db req.username = none := by
    rw [get_user_by_username, List.find?_eq_none]
    intro u hu
    simpa using husername u hu
  refine ⟨⟨db.nextId, req.email, req.username, req.fullName⟩, ?_, ?_, rfl, rfl, rfl⟩
  · simp [create_user, hem, hun, crud_create_user]
  · have hold : db.users.find? (fun u => u.id == db.nextId) = none := by
      rw [List.find?_eq_none]
      intro u hu
      simpa using Nat.ne_of_lt (hfresh u hu)
    have hid : get_user_by_id
        ⟨db.users ++ [⟨db.nextId, req.email, req.username, req.fullName⟩],
         db.nextId + 1⟩ db.nextId =
        some ⟨db.nextId, req.email, req.username, req.fullName⟩ := by
      rw [get_user_by_id]
      rw [List.find?_append, hold]
      simp [List.find?_cons]
    simp [create_user, hem, hun, crud_create_user, get_user, hid]

/-- A request whose email and username are fresh for the seeded store. -/
def freshReq : UserCreate := ⟨"c@x.com", "carol", "Carol"⟩

/-- Witness for C5: creating carol on the seeded store succeeds and reading
the fresh identifier back returns the submitted fields. -/
theorem create_then_get_witness :
    (∀ u ∈ seedStore.users, u.id < seedStore.nextId) ∧
    (∀ u ∈ seedStore.users, u.email ≠ freshReq.email) ∧
    (∀ u ∈ seedStore.users, u.username ≠ freshReq.username) ∧
    (∃ u, (create_user freshReq seedStore).1 = Except.ok u ∧
      get_user u.id (create_user freshReq seedStore).2 = Except.ok u ∧
      u.email = freshReq.email ∧ u.username = freshReq.username ∧
      u.fullName = freshReq.fullName) :=
  ⟨by decide, by decide, by decide,
   create_then_get seedStore freshReq (by decide) (by decide) (by decide)⟩

/-- C6: when no stored user has the identifier, GetUser, UpdateUser and
DeleteUser all fail with NotFound (HTTP 404) and the mutating two leave the
store untouched. -/
theorem missing_id_not_found (db : Store) (userId : Nat) (upd : UserUpdate)
    (h : ∀ u ∈ db.users, u.id ≠ userId) :
    get_user userId db = Except.error ⟨404, "User not found"⟩ ∧
    update_user userId upd db = (Except.error ⟨404, "User not found"⟩, db) ∧
    delete_user userId db = (Except.error ⟨404, "User not found"⟩, db) := by
  have hid : get_user_by_id db userId = none :=
    (get_user_by_id_eq_none db userId).2 h
  exact ⟨by simp [get_user, hid], by simp [update_user, hid],
         by simp [delete_user, hid]⟩

/-- An update input that sets only the profile field. -/
def onlyNameUpdate : UserUpdate := ⟨none, none, some "Newname"⟩

/-- Witness for C6: identifier 42 is absent from the seeded store and all
three operations answer 404. -/
theorem missing_id_not_found_witness :
    (∀ u ∈ seedStore.users, u.id ≠ 42) ∧
    (get_user 42 seedStore = Except.error ⟨404, "User not found"⟩ ∧
     update_user 42 onlyNameUpdate seedStore =
       (Except.error ⟨404, "User not found"⟩, seedStore) ∧
     delete_user 42 seedStore =
       (Except.error ⟨404, "User not found"⟩, seedStore)) :=
  ⟨by decide, missing_id_not_found seedStore 42 onlyNameUpdate (by decide)⟩

/-- C7: deleting an existing identifier succeeds, afterwards no stored user
carries that identifier, and a subsequent GetUser on it fails with
NotFound. -/
theorem delete_then_get_not_found (db : Store) (userId : Nat) (u : User)
    (h : get_user_by_id db userId = some u) :
    (delete_user userId db).1 = Except.ok () ∧
    (∀ v ∈ (delete_user userId db).2.users, v.id ≠ userId) ∧
    get_user userId (delete_user userId db).2 =
      Except.error ⟨404, "User not found"⟩ := by
  have huid : u.id = userId := by
    have := List.find?_some h
    simpa using this
  have hmem : ∀ v ∈ (crud_delete_user db u).users, v.id ≠ userId := by
    intro v hv
    rw [crud_delete_user] at hv
    have := List.of_mem_filter hv
    simpa [huid] using this
  refine ⟨by simp [delete_user, h], ?_, ?_⟩
  · intro v hv
    rw [delete_user, h] at hv
    exact hmem v hv
  · have hnone : get_user_by_id (crud_delete_user db u) userId = none :=
      (get_user_by_id_eq_none _ _).2 hmem
    simp [delete_user, h, get_user, hnone]

/-- Witness for C7: deleting bob (identifier 2) from the seeded store
succeeds and reading identifier 2 afterwards answers 404. -/
theorem delete_then_get_not_found_witness :
    get_user_by_id seedStore 2 = some ⟨2, "b@x.com", "bob", "Bob"⟩ ∧
    ((delete_user 2 seedStore).1 = Except.ok () ∧
     (∀ v ∈ (delete_user 2 seedStore).2.users, v.id ≠ 2) ∧
     get_user 2 (delete_user 2 seedStore).2 =
       Except.error ⟨404, "User not found"⟩) :=
  ⟨by decide,
   delete_then_get_not_found seedStore 2 ⟨2, "b@x.com", "bob", "Bob"⟩ (by decide)⟩

/-- C2: updating an existing user succeeds and overwrites exactly the
fields the partial input supplies: each present field takes the supplied
value, each absent field keeps its stored value, the identifier is
unchanged, and every stored record with a different identifier is left
untouched at its position. -/
theorem update_user_frame (db : Store) (userId : Nat) (upd : UserUpdate)
    (u : User) (h : get_user_by_id db userId = some u) :
    ∃ u', (update_user userId upd db).1 = Except.ok u' ∧
      u'.id = u.id ∧
      (upd.email = none → u'.email = u.email) ∧
      (∀ e, upd.email = some e → u'.email = e) ∧
      (upd.username = none → u'.username = u.username) ∧
      (∀ s, upd.username = some s → u'.username = s) ∧
      (upd.fullName = none → u'.fullName = u.fullName) ∧
      (∀ s, upd.fullName = some s → u'.fullName = s) ∧
      (update_user userId upd db).2.users.length = db.users.length ∧
      (∀ (i : Nat) (v : User), db.users[i]? = some v → v.id ≠ u.id →
        (update_user userId upd db).2.users[i]? = some v) ∧
      (∀ (i : Nat) (v : User), db.users[i]? = some v → v.id = u.id →
        (update_user userId upd db).2.users[i]? = some (applyUpdate u upd)) := by
  refine ⟨applyUpdate u upd, ?_, rfl, ?_, ?_, ?_, ?_, ?_, ?_, ?_, ?_, ?_⟩
  · simp [update_user, h, crud_update_user]
  · intro he; simp [applyUpdate, he]
  · intro e he; simp [applyUpdate, he]
  · intro hn; simp [applyUpdate, hn]
  · intro s hs; simp [applyUpdate, hs]
  · intro hf; simp [applyUpdate, hf]
  · intro s hs; simp [applyUpdate, hs]
  · simp [update_user, h, crud_update_user]
  · intro i v hv hne
    simp [update_user, h, crud_update_user, List.getElem?_map, hv, hne]
  · intro i v hv heq
    simp [update_user, h, crud_update_user, List.getElem?_map, hv, heq]

/-- Witness for C2: bob exists in the seeded store and an update that sets
only the profile field satisfies the frame property. -/
theorem update_user_frame_witness :
    get_user_by_id seedStore 2 = some ⟨2, "b@x.com", "bob", "Bob"⟩ ∧
    (∃ u', (update_user 2 onlyNameUpdate seedStore).1 = Except.ok u' ∧
      u'.id = 2 ∧
      (onlyNameUpdate.email = none → u'.email = "b@x.com") ∧
      (∀ e, onlyNameUpdate.email = some e → u'.email = e) ∧
      (onlyNameUpdate.username = none → u'.username = "bob") ∧
      (∀ s, onlyNameUpdate.username = some s → u'.username = s) ∧
      (onlyNameUpdate.fullName = none → u'.fullName = "Bob") ∧
      (∀ s, onlyNameUpdate.fullName = some s → u'.fullName = s) ∧
      (update_user 2 onlyNameUpdate seedStore).2.users.length =
        seedStore.users.length ∧
      (∀ (i : Nat) (v : User), seedStore.users[i]? = some v → v.id ≠ 2 →
        (update_user 2 onlyNameUpdate seedStore).2.users[i]? = some v) ∧
      (∀ (i : Nat) (v : User), seedStore.users[i]? = some v → v.id = 2 →
        (update_user 2 onlyNameUpdate seedStore).2.users[i]? =
          some (applyUpdate ⟨2, "b@x.com", "bob", "Bob"⟩ onlyNameUpdate))) :=
  ⟨by decide,
   update_user_frame seedStore 2 onlyNameUpdate ⟨2, "b@x.com", "bob", "Bob"⟩
     (by decide)⟩

/-- Emails are pairwise distinct across the stored records. -/
def storeUniqueEmails (db : Store) : Prop :=
  db.users.Pairwise (fun a b => a.email ≠ b.email)

/-- Usernames are pairwise distinct across the stored records. -/
def storeUniqueUsernames (db : Store) : Prop :=
  db.users.Pairwise (fun a b => a.username ≠ b.username)

/-- An update input that sets only the email, to the email alice already
holds. -/
def emailGrabUpdate : UserUpdate := ⟨some "a@x.com", none, none⟩

/-- C4: UpdateUser re-validates no uniqueness: the seeded store satisfies
both uniqueness invariants, yet updating bob's email to alice's succeeds
(no Conflict) and leaves two distinct stored users sharing an email. -/
theorem update_user_no_uniqueness_revalidation :
    storeUniqueEmails seedStore ∧ storeUniqueUsernames seedStore ∧
    (update_user 2 emailGrabUpdate seedStore).1 =
      Except.ok ⟨2, "a@x.com", "bob", "Bob"⟩ ∧
    ∃ a ∈ (update_user 2 emailGrabUpdate seedStore).2.users,
      ∃ b ∈ (update_user 2 emailGrabUpdate seedStore).2.users,
        a.id ≠ b.id ∧ a.email = b.email := by
  refine ⟨?_, ?_, rfl, ?_⟩
  · unfold storeUniqueEmails
    decide
  · unfold storeUniqueUsernames
    decide
  · exact ⟨⟨1, "a@x.com", "alice", "Alice"⟩, by decide,
           ⟨2, "a@x.com", "bob", "Bob"⟩, by decide, by decide, by decide⟩

/-- C3: listing skips exactly `skip` records of the full result set, then
returns at most `limit` of what remains; it never fails, and when `skip`
reaches or exceeds the record count the result is empty. -/
theorem get_users_pagination (db : Store) (skip limit : Nat) :
    get_users db skip limit = (db.users.drop skip).take limit ∧
    (get_users db skip limit).length ≤ limit ∧
    (db.users.length ≤ skip → get_users db skip limit = []) := by
  refine ⟨rfl, ?_, ?_⟩
  · simp [get_users, crud_get_users]
  · intro hle
    simp [get_users, crud_get_users, List.drop_eq_nil_of_le hle]

/-- A store holding five seeded users. -/
def seed5 : Store :=
  ⟨[⟨1, "u1@x.com", "u1", "U1"⟩, ⟨2, "u2@x.com", "u2", "U2"⟩,
    ⟨3, "u3@x.com", "u3", "U3"⟩, ⟨4, "u4@x.com", "u4", "U4"⟩,
    ⟨5, "u5@x.com", "u5", "U5"⟩], 6⟩

/-- Witness for C3, on five seeded users: offset 0 limit 2 yields exactly
2 records, offset 4 limit 2 yields exactly 1, and offset 10 limit 2 yields
none. -/
theorem get_users_pagination_witness :
    (get_users seed5 0 2).length = 2 ∧
    (get_users seed5 4 2).length = 1 ∧
    seed5.users.length ≤ 10 ∧
    get_users seed5 10 2 = [] :=
  ⟨by decide, by decide, by decide,
   (get_users_pagination seed5 10 2).2.2 (by decide)⟩

/-- C10: invoking the listing endpoint without explicit arguments uses
offset 0 and limit 100: the call equals the explicit (0, 100) call, skips
no records (it is an initial segment of the stored records), and returns
at most 100 of them. -/
theorem get_users_default_args (db : Store) :
    get_users db = get_users db 0 100 ∧
    get_users db = db.users.take 100 ∧
    (get_users db).length ≤ 100 := by
  refine ⟨rfl, by simp [get_users, crud_get_users], ?_⟩
  simp [get_users, crud_get_users]

/-- A first-match characterization of `List.find?`: if position `j` holds a
satisfying element and every earlier position holds a non-satisfying one,
the scan returns exactly that element. -/
theorem find?_eq_some_of_first_match {α : Type} (p : α → Bool) (l : List α)
    (j : Nat) (a : α) (hj : l[j]? = some a) (hpa : p a = true)
    (hfirst : ∀ (k : Nat) (b : α), k < j → l[k]? = some b → p b = false) :
    l.find? p = some a := by
  induction l generalizing j with
  | nil => simp at hj
  | cons x xs ih =>
    cases j with
    | zero =>
      rw [List.getElem?_cons_zero] at hj
      cases hj
      simp [List.find?_cons, hpa]
    | succ n =>
      have hx : p x = false :=
        hfirst 0 x (Nat.succ_pos n) List.getElem?_cons_zero
      rw [List.find?_cons, hx]
      exact ih n (by simpa using hj)
        (fun k b hk hkb =>
          hfirst (k + 1) b (Nat.succ_lt_succ hk) (by simpa using hkb))

/-- C9: the read path yields exactly one output record per subject, in
order; each output pairs its subject with the faculty of the first
TeachingFaculty record whose course equals the subject's name
(case-sensitive string equality), and carries no faculty when no
TeachingFaculty record matches. -/
theorem subject_faculty_pairing (subjects : List Subject)
    (tf : List TeachingFaculty) :
    (list_of_subject_faculty_teaching subjects tf).length = subjects.length ∧
    ∀ (i : Nat) (s : Subject), subjects[i]? = some s →
      ∃ r, (list_of_subject_faculty_teaching subjects tf)[i]? = some r ∧
        r.subject = s ∧
        ((∀ f ∈ tf, f.course ≠ s.name) → r.faculty = none) ∧
        (∀ (j : Nat) (f : TeachingFaculty), tf[j]? = some f →
          f.course = s.name →
          (∀ (k : Nat) (g : TeachingFaculty), k < j → tf[k]? = some g →
            g.course ≠ s.name) →
          r.faculty = some (f.faculty)) := by
  constructor
  · simp [list_of_subject_faculty_teaching]
  · intro i s hs
    refine ⟨⟨s, (tf.find? (fun f => f.course == s.name)).map
      (fun f => f.faculty)⟩, ?_, rfl, ?_, ?_⟩
    · simp [list_of_subject_faculty_teaching, List.getElem?_map, hs]
    · intro hnone
      have hn : tf.find? (fun f => f.course == s.name) = none := by
        rw [List.find?_eq_none]
        intro f hf
        simpa using hnone f hf
      simp [hn]
    · intro j f hj hcourse hfirst
      have hf : tf.find? (fun g => g.course == s.name) = some f := by
        refine find?_eq_some_of_first_match _ tf j f hj (by simpa using hcourse) ?_
        intro k g hk hkg
        simpa using hfirst k g hk hkg
      simp [hf]

/-- The three seeded subjects of the population script. -/
def seedSubjects : List Subject :=
  [⟨1, "Mathematics", "6 months", "Science"⟩,
   ⟨2, "Physics", "6 months", "Science"⟩,
   ⟨3, "Chemistry", "6 months", "Science"⟩]

/-- The three seeded teaching-faculty records of the population script. -/
def seedTeachingFaculty : List TeachingFaculty :=
  [⟨1, "Mathematics", "Dr. Smith"⟩,
   ⟨2, "Physics", "Dr. Johnson"⟩,
   ⟨3, "Chemistry", "Dr. Lee"⟩]

/-- Witness for C9 at the seeded school data: one output per subject, and
the first subject is paired with its matching faculty. -/
theorem subject_faculty_pairing_witness :
    (list_of_subject_faculty_teaching seedSubjects seedTeachingFaculty).length
      = seedSubjects.length ∧
    (∃ r, (list_of_subject_faculty_teaching seedSubjects
        seedTeachingFaculty)[0]? = some r ∧
      r.subject = ⟨1, "Mathematics", "6 months", "Science"⟩ ∧
      r.faculty = some ("Dr. Smith")) := by
  refine ⟨(subject_faculty_pairing seedSubjects seedTeachingFaculty).1, ?_⟩
  obtain ⟨r, hr, hsub, -, hmatch⟩ :=
    (subject_faculty_pairing seedSubjects seedTeachingFaculty).2 0
      ⟨1, "Mathematics", "6 months", "Science"⟩ (by decide)
  exact ⟨r, hr, hsub,
    hmatch 0 ⟨1, "Mathematics", "Dr. Smith"⟩ (by decide) (by decide)
      (fun k g hk _ => absurd hk (Nat.not_lt_zero k))⟩
